import Mathlib

/-
Verification of the PPPoE link-layer subsystem of mpd-ng (src/src/pppoe.c)
against its natural-language specification.

The embedding below translates the relevant pieces of pppoe.c into Lean:

* the discovery-tag codec (get_tag / get_vs_tag and the BBF vendor sub-TLV
  scanner inlined in PppoeListenEvent), modelled over an abstract byte
  memory `Nat → Nat` where offset 0 is the start of the PPPoE header
  (struct pppoe_hdr);
* the per-link session state machine (PppoeInit, PppoeOpen, PppoeClose,
  PppoeDoClose, PppoeConnectTimeout, the NGM_PPPOE_* message handlers of
  PppoeCtrlReadEvent, the accepting half of PppoeListenEvent, and the
  relevant PppoeSetCommand cases), as pure transition functions that also
  return the observable actions (graph messages, timer operations, host
  notifications, log lines) the C code performs;
* the parent-interface registry (PppoeGetNode / PppoeReleaseNode) as a
  per-entry transition system with a reachability predicate;
* the control-message demultiplexer of PppoeCtrlReadEvent (hook-name
  routing) over hook names modelled as lists of characters.

C pointers become offsets, network-byte-order 16-bit reads become
explicit big-endian byte arithmetic, and size_t subtraction is modelled
with an explicit wrap at 2^64 where the C code can underflow.
-/

/- Byte memory: a total function from offsets to byte values.  byteAt
   truncates to a byte exactly as the C u_char/char accesses do. -/

def byteAt (b : Nat → Nat) (i : Nat) : Nat := b i % 256

/- ntohs of the 16-bit field stored at offsets i, i+1 (network byte order,
   so the value is big-endian). -/
def ntohsAt (b : Nat → Nat) (i : Nat) : Nat := byteAt b i * 256 + byteAt b (i + 1)

/- Width of size_t on the target (FreeBSD/amd64): 2^64. -/
def W64 : Nat := 18446744073709551616

/- size_t subtraction a - c as the C code computes it, wrapping modulo
   2^64 (valid for c ≤ a + W64, which covers every use below). -/
def csub (a c : Nat) : Nat := (a + W64 - c) % W64

/- Value of `(size_t)v` where v is read through a (signed) `char`:
   bytes ≥ 128 are sign-extended, as in `size_t len1 = b[pos + 1]` in
   PppoeListenEvent. -/
def sxChar (v : Nat) : Nat := if v < 128 then v else W64 - 256 + v

/-
Tag iteration of get_tag / get_vs_tag / print_tags (pppoe.c:1067-1121):

    end = (char *)(ph + 1) + ntohs(ph->length);     -- offset 6 + L
    pt  = (pppoe_tag *)(ph + 1);                    -- offset 6
    while ((char *)(pt + 1) <= end) {               -- pt + 4 <= end
        ptn = (char *)(pt + 1) + ntohs(pt->tag_len);
        if (ptn > end) return NULL;                 -- abort before the tag
        ... yield pt ...
        pt = ptn;
    }

tagScanF returns the list of tags the loop visits, as triples
(offset of the tag header, ntohs(tag_type), ntohs(tag_len)).  The loop
advances by at least 4 bytes per iteration, so any fuel larger than the
remaining byte count is enough; tagScanF_stable below proves the result
is independent of the fuel once it is at least e + 1 - pt.
-/
def tagScanF : Nat → (Nat → Nat) → Nat → Nat → List (Nat × Nat × Nat)
  | 0, _, _, _ => []
  | fuel + 1, b, e, pt =>
    if pt + 4 ≤ e then
      if e < pt + 4 + ntohsAt b (pt + 2) then []
      else
        (pt, ntohsAt b pt, ntohsAt b (pt + 2)) ::
          tagScanF fuel b e (pt + 4 + ntohsAt b (pt + 2))
    else []

/- All tags of the PPPoE packet whose header starts at offset 0:
   the loop above with end = 6 + ntohs(ph->length) and pt = 6. -/
def pppoeTags (b : Nat → Nat) : List (Nat × Nat × Nat) :=
  tagScanF (ntohsAt b 4 + 1) b (6 + ntohsAt b 4) 6

/- get_tag(ph, idx): offset of the first tag whose raw tag_type equals
   idx (comparison of the 16-bit value; both sides in the same byte
   order, so big-endian values are compared). -/
def get_tag (b : Nat → Nat) (idx : Nat) : Option Nat :=
  ((pppoeTags b).find? (fun t => t.2.1 == idx)).map (fun t => t.1)

/- The BBF vendor id 0x00000DE9 as the four payload bytes the C code
   compares with *(uint32_t *)(pt + 1) == htonl(0x00000DE9). -/
def vendorIsBBF (b : Nat → Nat) (o : Nat) : Bool :=
  byteAt b (o + 4) == 0 && byteAt b (o + 5) == 0 &&
  byteAt b (o + 6) == 13 && byteAt b (o + 7) == 233

/- PTT_VENDOR is 0x0105 in network byte order. -/
def get_vs_tagOff (b : Nat → Nat) : Option (Nat × Nat) :=
  ((pppoeTags b).find?
      (fun t => t.2.1 == 261 && decide (4 ≤ t.2.2) && vendorIsBBF b t.1)).map
    (fun t => (t.1, t.2.2))

/- Result of strncpy(dst, &b[base], len1) into a pre-zeroed 64-byte
   buffer with len1 ≤ 63: the stored C string is the copied bytes up to
   the first NUL. -/
def bbfRead (b : Nat → Nat) (base len1 : Nat) : List Nat :=
  (((List.range len1).map (fun i => byteAt b (base + i))).takeWhile (fun v => v ≠ 0))

/- Truncation `if (len1 >= sizeof(agent_rid)) len1 = sizeof(agent_rid) - 1;`
   with sizeof(agent_rid) = 64. -/
def capLen (v : Nat) : Nat := if 64 ≤ v then 63 else v

/- One sub-entry's effect on (agent_cid, agent_rid): the switch on b[pos]. -/
def bbfUpd (b : Nat → Nat) (base pos len1 : Nat) (acc : List Nat × List Nat) :
    List Nat × List Nat :=
  if byteAt b (base + pos) = 1 then (bbfRead b (base + pos + 2) len1, acc.2)
  else if byteAt b (base + pos) = 2 then (acc.1, bbfRead b (base + pos + 2) len1)
  else acc

/-
The BBF sub-TLV scanner of PppoeListenEvent (pppoe.c:1297-1316):

    size_t len = ntohs(tag->tag_len) - 4, pos = 0;
    const char *b = (const char *)(tag + 1) + 4;
    while (pos + 1 <= len) {
        size_t len1 = b[pos + 1];              -- sign-extended char!
        if (len1 > len - pos - 2)              -- size_t arithmetic
            break;
        if (len1 >= sizeof(agent_rid)) len1 = sizeof(agent_rid) - 1;
        switch (b[pos]) { case 1: ... case 2: ... }
        pos += 2 + len1;
    }

base is the absolute offset of b (vendor tag offset + 8).  The loop
advances pos by at least 2 each iteration. -/
def bbfScanF : Nat → (Nat → Nat) → Nat → Nat → Nat → (List Nat × List Nat) →
    List Nat × List Nat
  | 0, _, _, _, _, acc => acc
  | fuel + 1, b, base, len, pos, acc =>
    if pos + 1 ≤ len then
      if csub len (pos + 2) < sxChar (byteAt b (base + pos + 1)) then acc
      else
        bbfScanF fuel b base len (pos + 2 + capLen (sxChar (byteAt b (base + pos + 1))))
          (bbfUpd b base pos (capLen (sxChar (byteAt b (base + pos + 1)))) acc)
    else acc

/- The whole BBF decode of PppoeListenEvent: find the vendor tag, then
   scan its sub-TLVs starting from cleared agent_cid / agent_rid buffers.
   Returns none when no BBF vendor tag is found (both buffers stay empty). -/
def bbfDecode (b : Nat → Nat) : Option (List Nat × List Nat) :=
  match get_vs_tagOff b with
  | none => none
  | some ol => some (bbfScanF (ol.2 + 1) b (ol.1 + 8) (ol.2 - 4) 0 ([], []))

/- Concrete packets used as explicit inputs in the theorems below. -/

/- A packet with length field 9 and one BBF vendor tag of tag_len 5:
   four vendor-id bytes plus a single residual byte 0x01.  The packet
   ends at offset 15; every byte past it is 0. -/
def oobB1 : Nat → Nat := fun i =>
  List.getD [17, 9, 0, 0, 0, 9, 1, 5, 0, 5, 0, 0, 13, 233, 1] i 0

/- The same packet, but with nonzero bytes planted beyond its end
   (offsets 15 and 16).  Agrees with oobB1 on every offset < 15. -/
def oobB2 : Nat → Nat := fun i =>
  List.getD [17, 9, 0, 0, 0, 9, 1, 5, 0, 5, 0, 0, 13, 233, 1, 1, 65] i 0

/- A well-formed packet with length field 8 and one tag
   (type 0x0101, len 4, value "ABCD"). -/
def tagB1 : Nat → Nat := fun i =>
  List.getD [17, 9, 0, 0, 0, 8, 1, 1, 0, 4, 65, 66, 67, 68] i 0

/- tagB1 with a different byte planted past the 6 + length bound. -/
def tagB2 : Nat → Nat := fun i =>
  List.getD [17, 9, 0, 0, 0, 8, 1, 1, 0, 4, 65, 66, 67, 68, 99, 99] i 0

/- The all-zero packet: length field 0. -/
def zeroB : Nat → Nat := fun _ => 0

/-
The per-link session state machine.

Session collects the fields of struct pppoeinfo (pppoe.c:74-93) that the
claims are about, plus the link-level state l->state, the ACFC bits of
l->conf.options, and whether the connect timer is running.  String-typed
C buffers become String, the 6-byte peer MAC a list of bytes, pe->PIf a
Boolean presence flag (the registry itself is modelled separately).
-/

inductive PhysState
  | down
  | connecting
  | ready
  | up
deriving DecidableEq

inductive DownReason
  | errorR
  | conFailedR
  | manuallyR
  | droppedR
deriving DecidableEq

/- Observable actions of a transition, in program order: graph control
   and data messages, timer operations, host notifications, log lines. -/
inductive Act
  | logA
  | physUp
  | physDown (r : DownReason)
  | physIncoming
  | timerStart
  | timerStop
  | graphConnect
  | graphSetMaxp
  | graphConnectReq
  | graphDisconnect
  | graphMkpeer
  | graphOffer
  | graphService
  | graphSendData
  | graphShutdownNode
deriving DecidableEq

structure Session where
  state : PhysState
  opened : Bool
  incoming : Bool
  timerRunning : Bool
  hasPIf : Bool
  peeraddr : List Nat
  session : String
  realSession : String
  agentCid : String
  agentRid : String
  mpReply : Bool
  maxPayload : Nat
  macFormat : Nat
  acfcDisabled : Bool
  acfcDenied : Bool
deriving DecidableEq

def zero6 : List Nat := [0, 0, 0, 0, 0, 0]

/- PppoeInit (pppoe.c:277-301): the freshly initialised link.  Note that
   real_session is strlcpy-ed from session, whose default is "*". -/
def initSession : Session :=
  { state := PhysState.down
    opened := false
    incoming := false
    timerRunning := false
    hasPIf := false
    peeraddr := zero6
    session := "*"
    realSession := "*"
    agentCid := ""
    agentRid := ""
    mpReply := false
    maxPayload := 0
    macFormat := 0
    acfcDisabled := false
    acfcDenied := false }

/- Outcomes of the external calls PppoeOpen makes (PhysGetUpperHook and
   the NgSendMsg calls); each flag tells whether the call succeeds. -/
structure OpenEnv where
  getNodeOk : Bool
  upperHookOk : Bool
  connectOk : Bool
  setMaxpOk : Bool
  connectReqOk : Bool
deriving DecidableEq

/-
PppoeOpen (pppoe.c:326-458).  The function first sets opened = 1 and
disables/denies the ACFC option, then branches on pe->incoming; on the
outgoing path it refuses any state other than DOWN with a single log
line, and otherwise wires the session hook, sends SETMAXP and CONNECT,
starts the 9-second timer and moves to CONNECTING.  All failure paths
notify PhysDown(STR_ERROR); the paths through fail2/fail3 also
disconnect the session hook first.
-/
def pppoeOpen (env : OpenEnv) (s0 : Session) : Session × List Act :=
  let s := { s0 with opened := true, acfcDisabled := true, acfcDenied := true }
  if s.incoming then
    if ¬ env.upperHookOk then
      (s, [Act.logA, Act.logA, Act.graphDisconnect, Act.physDown DownReason.errorR])
    else if ¬ env.connectOk then
      (s, [Act.logA, Act.logA, Act.graphDisconnect, Act.physDown DownReason.errorR])
    else if s.state = PhysState.ready then
      ({ s with timerRunning := false, state := PhysState.up },
       [Act.logA, Act.graphConnect, Act.graphShutdownNode, Act.timerStop, Act.physUp])
    else
      (s, [Act.logA, Act.graphConnect, Act.graphShutdownNode])
  else if s.state ≠ PhysState.down then
    (s, [Act.logA])
  else
    let s1 := { s with hasPIf := s.hasPIf || env.getNodeOk }
    if ¬ s1.hasPIf then
      (s1, [Act.logA, Act.physDown DownReason.errorR])
    else if ¬ env.upperHookOk then
      (s1, [Act.logA, Act.graphDisconnect, Act.physDown DownReason.errorR])
    else if ¬ env.connectOk then
      (s1, [Act.logA, Act.graphDisconnect, Act.physDown DownReason.errorR])
    else if ¬ env.setMaxpOk then
      (s1, [Act.graphConnect, Act.logA, Act.graphDisconnect, Act.physDown DownReason.errorR])
    else if ¬ env.connectReqOk then
      (s1, [Act.graphConnect, Act.graphSetMaxp, Act.logA, Act.logA, Act.graphDisconnect,
            Act.physDown DownReason.errorR])
    else
      ({ s1 with
          state := PhysState.connecting
          timerRunning := true
          realSession := s1.session
          agentCid := ""
          agentRid := ""
          mpReply := false },
       [Act.graphConnect, Act.graphSetMaxp, Act.logA, Act.graphConnectReq, Act.timerStart])

/- PppoeDoClose (pppoe.c:509-532): no-op in DOWN; otherwise disconnect
   the session hook, stop the timer, go to DOWN and clear the per-session
   identity fields. -/
def pppoeDoClose (s : Session) : Session × List Act :=
  if s.state = PhysState.down then (s, [])
  else
    ({ s with
        state := PhysState.down
        incoming := false
        timerRunning := false
        peeraddr := zero6
        realSession := ""
        agentCid := ""
        agentRid := ""
        mpReply := false },
     [Act.graphDisconnect, Act.timerStop])

/- PppoeClose (pppoe.c:478-488): clear opened; in DOWN nothing more,
   otherwise DoClose and PhysDown(STR_MANUALLY). -/
def pppoeClose (s0 : Session) : Session × List Act :=
  let s := { s0 with opened := false }
  if s.state = PhysState.down then (s, [])
  else
    ((pppoeDoClose s).1, (pppoeDoClose s).2 ++ [Act.physDown DownReason.manuallyR])

/- PppoeConnectTimeout (pppoe.c:463-473). -/
def connectTimeout (s : Session) : Session × List Act :=
  ((pppoeDoClose s).1,
   Act.logA :: (pppoeDoClose s).2 ++ [Act.physDown DownReason.conFailedR])

/- NGM_PPPOE_SUCCESS handler (pppoe.c:620-629), reached only for links
   that are not DOWN (the demultiplexer filters those out). -/
def ctrlSuccess (s : Session) : Session × List Act :=
  if s.opened then
    ({ s with timerRunning := false, state := PhysState.up },
     [Act.logA, Act.timerStop, Act.physUp])
  else
    ({ s with state := PhysState.ready }, [Act.logA])

/- NGM_PPPOE_FAIL handler (pppoe.c:630-634). -/
def ctrlFail (s : Session) : Session × List Act :=
  ((pppoeDoClose s).1,
   Act.logA :: (pppoeDoClose s).2 ++ [Act.physDown DownReason.conFailedR])

/- NGM_PPPOE_CLOSE handler (pppoe.c:635-639). -/
def ctrlClose (s : Session) : Session × List Act :=
  ((pppoeDoClose s).1,
   Act.logA :: (pppoeDoClose s).2 ++ [Act.physDown DownReason.droppedR])

/- NGM_PPPOE_SETMAXP handler (pppoe.c:645-664): record mp_reply only
   when a nonzero max_payload was configured and the echoed value
   matches; otherwise log only. -/
def ctrlSetMaxp (v : Nat) (s : Session) : Session × List Act :=
  if 0 < s.maxPayload then
    if s.maxPayload = v then ({ s with mpReply := true }, [Act.logA])
    else (s, [Act.logA, Act.logA])
  else (s, [Act.logA, Act.logA])

/- Data extracted from an incoming PADI/PADR plus whether the graph
   wiring of PppoeListenEvent succeeded. -/
structure IncEnv where
  ok : Bool
  peer : List Nat
  service : String
  cid : String
  rid : String
deriving DecidableEq

/- The accepting tail of PppoeListenEvent (pppoe.c:1365-1463): every
   session-state mutation happens only after all fallible graph sends
   succeeded, so a failure leaves the chosen link's session untouched. -/
def incomingAccept (env : IncEnv) (s : Session) : Session × List Act :=
  if ¬ env.ok then (s, [Act.logA])
  else
    ({ s with
        state := PhysState.connecting
        incoming := true
        peeraddr := env.peer
        realSession := env.service
        agentCid := env.cid
        agentRid := env.rid
        timerRunning := true },
     [Act.graphMkpeer, Act.graphConnect, Act.graphOffer, Act.graphService,
      Act.graphSendData, Act.graphDisconnect, Act.timerStart, Act.physIncoming])

def PPPOE_MRU : Nat := 1492

/- ETHER_MAX_LEN from net/ethernet.h. -/
def ETHER_MAX_LEN : Nat := 1518

/-- Modelled from the spec: the CLI helper `Error` used by
PppoeSetCommand (pppoe.c:1737-1738) is defined outside src/; per the
spec's ConfigRejected contract ("bad value on set command, reported to
CLI; no state change") it reports the message and aborts the command, so
a rejected value leaves max_payload unchanged.  The bounds check itself
is the SET_MAX_PAYLOAD case of PppoeSetCommand (pppoe.c:1733-1740):
reject unless PPPOE_MRU <= n <= ETHER_MAX_LEN - 8.  The returned Boolean
is true when the value was accepted and stored. -/
def setMaxPayloadCmd (n : Int) (s : Session) : Session × Bool :=
  if n < (PPPOE_MRU : Int) ∨ (ETHER_MAX_LEN : Int) - 8 < n then (s, false)
  else ({ s with maxPayload := n.toNat }, true)

/- SET_SESSION case of PppoeSetCommand (pppoe.c:1718-1726). -/
def setSessionCmd (name : String) (s : Session) : Session :=
  { s with session := name }

/- Events a single link's session can experience; control messages carry
   the demultiplexer's guard (they are dropped for DOWN links), the
   timer fires only while running. -/
inductive Ev
  | openE (env : OpenEnv)
  | closeE
  | timeoutE
  | successE
  | failE
  | closeMsgE
  | setmaxpE (v : Nat)
  | incomingE (env : IncEnv)
  | setSessionE (name : String)
  | setMaxPayloadE (n : Int)

def stepEv (s : Session) (e : Ev) : Session × List Act :=
  match e with
  | Ev.openE env => pppoeOpen env s
  | Ev.closeE => pppoeClose s
  | Ev.timeoutE => if s.timerRunning then connectTimeout s else (s, [])
  | Ev.successE => if s.state = PhysState.down then (s, []) else ctrlSuccess s
  | Ev.failE => if s.state = PhysState.down then (s, []) else ctrlFail s
  | Ev.closeMsgE => if s.state = PhysState.down then (s, []) else ctrlClose s
  | Ev.setmaxpE v => if s.state = PhysState.down then (s, []) else ctrlSetMaxp v s
  | Ev.incomingE env => if s.state = PhysState.down then incomingAccept env s else (s, [])
  | Ev.setSessionE name => (setSessionCmd name s, [])
  | Ev.setMaxPayloadE n => ((setMaxPayloadCmd n s).1, [])

/- The session reached after a list of events. -/
def runEv (s : Session) : List Ev → Session
  | [] => s
  | e :: evs => runEv (stepEv s e).1 evs

/- All actions emitted along a list of events. -/
def runActs (s : Session) : List Ev → List Act
  | [] => []
  | e :: evs => (stepEv s e).2 ++ runActs (stepEv s e).1 evs

/- The invariant of claim C6 in its amended form. -/
def downInv (s : Session) : Prop :=
  s.state = PhysState.down →
    s.timerRunning = false ∧ s.peeraddr = zero6 ∧ s.agentCid = "" ∧
    s.agentRid = "" ∧ s.mpReply = false ∧
    (s.realSession = "" ∨ s.realSession = "*")

/- An all-success environment for PppoeOpen. -/
def allOkEnv : OpenEnv :=
  { getNodeOk := true, upperHookOk := true, connectOk := true,
    setMaxpOk := true, connectReqOk := true }

/- A successful outbound connect: open, then one SUCCESS message. -/
def outboundTrace : List Ev := [Ev.openE allOkEnv, Ev.successE]

/- Concrete sessions used to instantiate the theorems below. -/

def sConnOpened : Session :=
  { initSession with
      state := PhysState.connecting
      opened := true
      timerRunning := true
      hasPIf := true }

def sConnUnopened : Session :=
  { initSession with state := PhysState.connecting, timerRunning := true, hasPIf := true }

def sReadyUnopened : Session :=
  { initSession with state := PhysState.ready, hasPIf := true }

def sUpOpened : Session :=
  { initSession with state := PhysState.up, opened := true, hasPIf := true }

/- An outgoing link in CONNECTING whose ACFC option bits are still
   enabled (the link framework allows re-enabling them at any time). -/
def sC10 : Session :=
  { initSession with
      state := PhysState.connecting
      timerRunning := true
      hasPIf := true
      session := "isp"
      realSession := "isp" }

/-
The parent-interface registry (struct PppoeIf, PppoeGetNode,
PppoeReleaseNode; pppoe.c:230-241, 1483-1554).  PEntry is one slot of
the static PppoeIfs array; the array is zero-initialised, so a fresh
slot has empty path, refs 0 and socket fields 0.
-/

structure PEntry where
  ifnodepath : String
  nodeId : Nat
  csock : Int
  dsock : Int
  refs : Int
deriving DecidableEq

/- A slot of the zero-initialised static array PppoeIfs. -/
def emptyEntry : PEntry :=
  { ifnodepath := "", nodeId := 0, csock := 0, dsock := 0, refs := 0 }

/- PppoeGetNode when an entry with matching ifnodepath exists
   (pppoe.c:1523-1526): PppoeIfs[j].refs++. -/
def acquireExisting (e : PEntry) : PEntry := { e with refs := e.refs + 1 }

/- PppoeGetNode on a free slot when CreatePppoeNode succeeds
   (pppoe.c:1512-1517): CreatePppoeNode stored the fresh sockets and the
   node id, then the caller records the path and sets refs = 1. -/
def installCreated (path : String) (cs ds : Int) (nid : Nat) (e : PEntry) : PEntry :=
  { e with ifnodepath := path, csock := cs, dsock := ds, nodeId := nid, refs := 1 }

/- CreatePppoeNode failing after NgMkSockNode (pppoe.c:913-1050): the
   sockets are closed but the slot keeps the stale descriptor values;
   ifnodepath and refs are never written on this path. -/
def createFailed (cs ds : Int) (e : PEntry) : PEntry :=
  { e with csock := cs, dsock := ds }

/- PppoeReleaseNode (pppoe.c:1533-1554): decrement refs; at zero clear
   the path and node id, close both sockets and store -1 in them. -/
def releaseEntry (e : PEntry) : PEntry :=
  if e.refs - 1 = 0 then
    { e with refs := 0, ifnodepath := "", nodeId := 0, csock := -1, dsock := -1 }
  else { e with refs := e.refs - 1 }

/- Entry states reachable through the registry operations.  acquire on a
   matching entry requires a nonempty matching path (a free slot never
   matches: the scan in PppoeGetNode treats ifnodepath[0] == 0 as free);
   a successful CreatePppoeNode yields valid socket descriptors and a
   nonempty path (pi->path is never empty); release is performed once
   per held reference (each link holds at most one and nulls pi->PIf). -/
inductive ReachP : PEntry → Prop
  | init : ReachP emptyEntry
  | acq (e : PEntry) (h : ReachP e) (hne : e.ifnodepath ≠ "") :
      ReachP (acquireExisting e)
  | createOk (e : PEntry) (path : String) (cs ds : Int) (nid : Nat)
      (h : ReachP e) (hfree : e.ifnodepath = "") (hp : path ≠ "")
      (hcs : 0 ≤ cs) (hds : 0 ≤ ds) :
      ReachP (installCreated path cs ds nid e)
  | createFail (e : PEntry) (cs ds : Int) (h : ReachP e)
      (hfree : e.ifnodepath = "") :
      ReachP (createFailed cs ds e)
  | rel (e : PEntry) (h : ReachP e) (hr : 1 ≤ e.refs) :
      ReachP (releaseEntry e)

/- A concrete reachable entry: one successful create. -/
def entry1 : PEntry := installCreated "em0:" 3 4 7 emptyEntry

/-
The control-message demultiplexer of PppoeCtrlReadEvent
(pppoe.c:568-611), for the SUCCESS / FAIL / CLOSE / SETMAXP commands,
after the cookie check.  Hook names are lists of characters; routing
mirrors the C string handling: a strncmp check for "listen-", a strncmp
check for the "mpd<pid>-" hook name prefix, then strtol with base 10 on
the remainder, requiring the parse to consume the whole string.
-/

inductive CtrlCmd
  | success
  | fail
  | closeCmd
  | setmaxp
deriving DecidableEq

/- strncmp(s, pat, strlen(pat)) == 0. -/
def strStarts : List Char → List Char → Bool
  | _, [] => true
  | [], _ :: _ => false
  | c :: cs, p :: ps => c == p && strStarts cs ps

def isSpaceC (c : Char) : Bool :=
  c == ' ' || c == '\t' || c == '\n' || c == '\r' || c == '\x0b' || c == '\x0c'

def digitsVal : List Char → Nat → Nat × List Char
  | [], acc => (acc, [])
  | c :: cs, acc =>
    if c.isDigit then digitsVal cs (acc * 10 + (c.toNat - 48)) else (acc, c :: cs)

/- strtol(s, &rest, 10): skip whitespace, optional sign, digit run; on
   no conversion the end pointer is the original string and the value 0. -/
def strtol10 (s : List Char) : Int × List Char :=
  match s.dropWhile isSpaceC with
  | '-' :: rest =>
    if (rest.head?.map Char.isDigit).getD false then
      (-(Int.ofNat (digitsVal rest 0).1), (digitsVal rest 0).2)
    else (0, s)
  | '+' :: rest =>
    if (rest.head?.map Char.isDigit).getD false then
      (Int.ofNat (digitsVal rest 0).1, (digitsVal rest 0).2)
    else (0, s)
  | t =>
    if (t.head?.map Char.isDigit).getD false then
      (Int.ofNat (digitsVal t 0).1, (digitsVal t 0).2)
    else (0, s)

/- Routing on the embedded hook name (pppoe.c:580-600). -/
inductive Route
  | listenH
  | badPfx
  | badParse (id : Int)
  | linkId (id : Int)
deriving DecidableEq

def routeHook (pid : Nat) (hook : List Char) : Route :=
  if strStarts hook ("listen-".data) then Route.listenH
  else if ¬ strStarts hook (("mpd" ++ toString pid ++ "-").data) then Route.badPfx
  else
    if (strtol10 (hook.drop (("mpd" ++ toString pid ++ "-").data).length)).2 ≠ [] then
      Route.badParse (strtol10 (hook.drop (("mpd" ++ toString pid ++ "-").data).length)).1
    else
      Route.linkId (strtol10 (hook.drop (("mpd" ++ toString pid ++ "-").data).length)).1

/- What the demultiplexer needs to know about gLinks[id]. -/
structure DLink where
  isPppoe : Bool
  parent : Nat
  down : Bool
deriving DecidableEq

/- gPid and the gLinks table (lookup abstracted to a total map from the
   parsed id; ids with no valid link map to none). -/
structure DemuxEnv where
  pid : Nat
  links : Int → Option DLink

/- Outcome of the demultiplexer: either the message is dropped after
   emitting the given number of log lines and no link is touched, or it
   is dispatched to the state machine of link id. -/
inductive DemuxOut
  | drop (nlogs : Nat)
  | dispatch (id : Int)
deriving DecidableEq

/- PppoeCtrlReadEvent's gate for SUCCESS/FAIL/CLOSE/SETMAXP
   (pppoe.c:575-611): listen- hooks are ignored silently; a wrong hook
   name prefix, an unparsable id, an unknown or non-PPPoE link and a
   foreign-parent link are dropped with one log line; a DOWN link drops
   the message with one log line unless it is a CLOSE, which is silent.
   The function is total: no input is fatal. -/
def ctrlDemux (env : DemuxEnv) (p : Nat) (cmd : CtrlCmd) (hook : List Char) : DemuxOut :=
  match routeHook env.pid hook with
  | Route.listenH => DemuxOut.drop 0
  | Route.badPfx => DemuxOut.drop 1
  | Route.badParse _ => DemuxOut.drop 1
  | Route.linkId id =>
    match env.links id with
    | none => DemuxOut.drop 1
    | some lk =>
      if lk.isPppoe = false then DemuxOut.drop 1
      else if lk.parent ≠ p then DemuxOut.drop 1
      else if lk.down then
        (if cmd = CtrlCmd.closeCmd then DemuxOut.drop 0 else DemuxOut.drop 1)
      else DemuxOut.dispatch id

/- A concrete environment with no links at all. -/
def envNoLinks : DemuxEnv := { pid := 123, links := fun _ => none }

def dlink7 : DLink := { isPppoe := true, parent := 0, down := true }

/- An environment where link 7 is a PPPoE link of parent 0, DOWN. -/
def envDown7 : DemuxEnv :=
  { pid := 123, links := fun i => if i = 7 then some dlink7 else none }

/-
Theorems.  Helper lemmas first, then one theorem per claim with its
witness or counterexample.
-/

/- Definitional unfolding equations for the fuel-indexed scanners. -/

theorem tagScanF_zero (b : Nat → Nat) (e pt : Nat) : tagScanF 0 b e pt = [] := rfl

theorem tagScanF_succ (fuel : Nat) (b : Nat → Nat) (e pt : Nat) :
    tagScanF (fuel + 1) b e pt =
      if pt + 4 ≤ e then
        if e < pt + 4 + ntohsAt b (pt + 2) then []
        else
          (pt, ntohsAt b pt, ntohsAt b (pt + 2)) ::
            tagScanF fuel b e (pt + 4 + ntohsAt b (pt + 2))
      else [] := rfl

/- The fuel argument does not matter once it exceeds the remaining byte
   count: the loop advances by at least 4 bytes per iteration. -/
theorem tagScanF_stable (b : Nat → Nat) (e : Nat) :
    ∀ fuel pt, e + 1 ≤ fuel + pt →
      tagScanF (fuel + 1) b e pt = tagScanF fuel b e pt := by
  intro fuel
  induction fuel with
  | zero =>
    intro pt h
    rw [tagScanF_zero, tagScanF_succ 0, if_neg (by omega)]
  | succ n ih =>
    intro pt h
    conv_lhs => rw [tagScanF_succ (n + 1)]
    conv_rhs => rw [tagScanF_succ n]
    by_cases hle : pt + 4 ≤ e
    · rw [if_pos hle, if_pos hle]
      by_cases hlt : e < pt + 4 + ntohsAt b (pt + 2)
      · rw [if_pos hlt, if_pos hlt]
      · rw [if_neg hlt, if_neg hlt, ih (pt + 4 + ntohsAt b (pt + 2)) (by omega)]
    · rw [if_neg hle, if_neg hle]

/- Every tag the scanner yields lies, header and value, within the
   first e bytes. -/
theorem tagScanF_bound (b : Nat → Nat) (e : Nat) :
    ∀ fuel pt t, t ∈ tagScanF fuel b e pt → t.1 + 4 + t.2.2 ≤ e := by
  intro fuel
  induction fuel with
  | zero => intro pt t ht; rw [tagScanF_zero] at ht; cases ht
  | succ n ih =>
    intro pt t ht
    rw [tagScanF_succ] at ht
    by_cases hle : pt + 4 ≤ e
    · rw [if_pos hle] at ht
      by_cases hlt : e < pt + 4 + ntohsAt b (pt + 2)
      · rw [if_pos hlt] at ht; cases ht
      · rw [if_neg hlt] at ht
        rcases List.mem_cons.mp ht with h1 | h1
        · subst h1; simpa using by omega
        · exact ih _ t h1
    · rw [if_neg hle] at ht; cases ht

theorem byteAt_agree (b b2 : Nat → Nat) (e i : Nat)
    (hag : ∀ j, j < e → b j = b2 j) (hi : i < e) : byteAt b i = byteAt b2 i := by
  unfold byteAt; rw [hag i hi]

theorem ntohsAt_agree (b b2 : Nat → Nat) (e i : Nat)
    (hag : ∀ j, j < e → b j = b2 j) (h1 : i + 1 < e) :
    ntohsAt b i = ntohsAt b2 i := by
  unfold ntohsAt
  rw [byteAt_agree b b2 e i hag (by omega), byteAt_agree b b2 e (i + 1) hag h1]

/- The scanner reads only bytes at offsets below e. -/
theorem tagScanF_agree (b b2 : Nat → Nat) (e : Nat)
    (hag : ∀ j, j < e → b j = b2 j) :
    ∀ fuel pt, tagScanF fuel b e pt = tagScanF fuel b2 e pt := by
  intro fuel
  induction fuel with
  | zero => intro pt; rfl
  | succ n ih =>
    intro pt
    rw [tagScanF_succ, tagScanF_succ]
    by_cases hle : pt + 4 ≤ e
    · rw [if_pos hle, if_pos hle,
        ntohsAt_agree b b2 e (pt + 2) hag (by omega),
        ntohsAt_agree b b2 e pt hag (by omega), ih]
    · rw [if_neg hle, if_neg hle]

/-- C1: for every PPPoE discovery packet whose header length field is L,
tag iteration never reads past 6 + ntohs(L) bytes from the PPPoE header
start (the result depends only on bytes at offsets below 6 + ntohs(L)),
a tag whose value would extend past that bound is never yielded (the
iteration stops before it), and a packet with length field 0 yields zero
tags with no error (the scanner is a total function returning the empty
list). -/
theorem c1_tag_iteration (b : Nat → Nat) :
    (∀ t ∈ pppoeTags b, t.1 + 4 + t.2.2 ≤ 6 + ntohsAt b 4) ∧
    (ntohsAt b 4 = 0 → pppoeTags b = []) ∧
    (∀ b2 : Nat → Nat, (∀ i, i < 6 + ntohsAt b 4 → b i = b2 i) →
      pppoeTags b = pppoeTags b2) := by
  refine ⟨?_, ?_, ?_⟩
  · intro t ht
    exact tagScanF_bound b (6 + ntohsAt b 4) (ntohsAt b 4 + 1) 6 t ht
  · intro h
    unfold pppoeTags
    rw [h]
    rfl
  · intro b2 hag
    have hL : ntohsAt b2 4 = ntohsAt b 4 :=
      (ntohsAt_agree b b2 (6 + ntohsAt b 4) 4 hag (by omega)).symm
    unfold pppoeTags
    rw [hL]
    exact tagScanF_agree b b2 (6 + ntohsAt b 4) hag (ntohsAt b 4 + 1) 6

/-- Witness for C1: the bound holds for the single tag of the concrete
packet tagB1, the all-zero packet (length field 0) yields no tags, and
the iteration result is unchanged by bytes planted past the bound. -/
theorem c1_witness :
    6 + 4 + 4 ≤ 6 + ntohsAt tagB1 4 ∧
    pppoeTags zeroB = [] ∧
    pppoeTags tagB1 = pppoeTags tagB2 :=
  ⟨(c1_tag_iteration tagB1).1 (6, 257, 4) (by decide),
   (c1_tag_iteration zeroB).2.1 (by decide),
   (c1_tag_iteration tagB1).2.2 tagB2 (by decide)⟩

/-- C4: the BBF vendor sub-TLV scanner of PppoeListenEvent reads outside
the vendor tag payload.  oobB1 and oobB2 agree on every byte of the
15-byte packet (and hence on the whole vendor tag payload, which ends at
offset 15), yet the decoder returns different Agent-Circuit-ID values:
with one residual payload byte the C expression len - pos - 2 underflows
to 2^64 - 1, the overshoot check passes, and the scanner takes the
sub_len byte and the copied value from beyond the payload. -/
theorem c4_bbf_oob_read :
    (List.range 15).all (fun i => oobB1 i == oobB2 i) = true ∧
    bbfDecode oobB1 = some ([], []) ∧
    bbfDecode oobB2 = some ([65], []) ∧
    bbfDecode oobB1 ≠ bbfDecode oobB2 := by decide

/-- C2: when a SUCCESS control message is delivered for a link in state
CONNECTING, the handler stops the connect timer, sets the state to UP
and notifies PhysUp when the opened flag is set, and sets the state to
READY when it is not. -/
theorem c2_success_connecting (s : Session) (h : s.state = PhysState.connecting) :
    (s.opened = true →
      ctrlSuccess s =
        ({ s with timerRunning := false, state := PhysState.up },
         [Act.logA, Act.timerStop, Act.physUp])) ∧
    (s.opened = false →
      ctrlSuccess s = ({ s with state := PhysState.ready }, [Act.logA])) := by
  constructor <;> intro ho <;> simp [ctrlSuccess, ho]

/-- Witness for C2: the two branches at concrete CONNECTING sessions. -/
theorem c2_witness :
    ctrlSuccess sConnOpened =
      ({ sConnOpened with timerRunning := false, state := PhysState.up },
       [Act.logA, Act.timerStop, Act.physUp]) ∧
    ctrlSuccess sConnUnopened =
      ({ sConnUnopened with state := PhysState.ready }, [Act.logA]) :=
  ⟨(c2_success_connecting sConnOpened rfl).1 rfl,
   (c2_success_connecting sConnUnopened rfl).2 rfl⟩

/-- Counterexample for C3: the handler is not idempotent.  After the
successful outbound connect (open, then one SUCCESS; PhysUp emitted
exactly once, state UP), delivering a duplicate SUCCESS for the same
session is not a no-op: the demultiplexer only filters DOWN links, so
the handler runs again and emits a second PhysUp. -/
theorem c3_counterexample :
    (runActs initSession outboundTrace).count Act.physUp = 1 ∧
    (runEv initSession outboundTrace).state = PhysState.up ∧
    (runActs initSession (outboundTrace ++ [Ev.successE])).count Act.physUp = 2 := by
  decide

/-- C3 as amended: a duplicate SUCCESS for a session in READY with
opened unset is a no-op apart from a log line; a SUCCESS delivered while
opened is set always emits exactly one PhysUp, so a duplicate SUCCESS on
an UP session calls PhysUp again; and in a successful outbound connect
in which the graph delivers exactly one SUCCESS, PhysUp is called
exactly once. -/
theorem c3_amended :
    (∀ s : Session, s.state = PhysState.ready → s.opened = false →
      ctrlSuccess s = (s, [Act.logA])) ∧
    (∀ s : Session, s.opened = true → (ctrlSuccess s).2.count Act.physUp = 1) ∧
    (runActs initSession outboundTrace).count Act.physUp = 1 := by
  refine ⟨?_, ?_, by decide⟩
  · intro s h1 h2
    obtain ⟨st, op, inc, tr, hp, pa, se, rs, ac, ar, mp, mpay, mf, ad, ady⟩ := s
    simp only at h1 h2
    subst h1
    subst h2
    simp [ctrlSuccess]
  · intro s h
    simp [ctrlSuccess, h]

/-- Witness for C3's amended theorem at concrete sessions. -/
theorem c3_witness :
    ctrlSuccess sReadyUnopened = (sReadyUnopened, [Act.logA]) ∧
    (ctrlSuccess sUpOpened).2.count Act.physUp = 1 :=
  ⟨c3_amended.1 sReadyUnopened rfl rfl, c3_amended.2.1 sUpOpened rfl⟩

/-- C5: close() clears the opened flag; on a DOWN link it does nothing
else; on any other link it disconnects the session hook, stops the
connect timer, clears peer_mac, real_service, agent_cid, agent_rid and
mp_reply, sets the state to DOWN and notifies PhysDown(MANUAL). -/
theorem c5_close (s : Session) :
    (pppoeClose s).1.opened = false ∧
    (s.state = PhysState.down → pppoeClose s = ({ s with opened := false }, [])) ∧
    (s.state ≠ PhysState.down →
      pppoeClose s =
        ({ s with
            opened := false
            state := PhysState.down
            incoming := false
            timerRunning := false
            peeraddr := zero6
            realSession := ""
            agentCid := ""
            agentRid := ""
            mpReply := false },
         [Act.graphDisconnect, Act.timerStop, Act.physDown DownReason.manuallyR])) := by
  refine ⟨?_, ?_, ?_⟩
  · by_cases h : s.state = PhysState.down <;> simp [pppoeClose, pppoeDoClose, h]
  · intro h; simp [pppoeClose, pppoeDoClose, h]
  · intro h; simp [pppoeClose, pppoeDoClose, h]

/-- Witness for C5 at a concrete CONNECTING session. -/
theorem c5_witness :
    pppoeClose sConnOpened =
      ({ sConnOpened with
          opened := false
          state := PhysState.down
          incoming := false
          timerRunning := false
          peeraddr := zero6
          realSession := ""
          agentCid := ""
          agentRid := ""
          mpReply := false },
       [Act.graphDisconnect, Act.timerStop, Act.physDown DownReason.manuallyR]) :=
  (c5_close sConnOpened).2.2 (by decide)

/-- Counterexample for C10: open() on an outgoing link that is not DOWN
does more than set opened: it also disables and denies the ACFC link
option (pppoe.c:341-342 run before the state sanity check).  At the
concrete CONNECTING session sC10 with the ACFC bits still enabled, both
bits change. -/
theorem c10_counterexample :
    sC10.incoming = false ∧ sC10.state ≠ PhysState.down ∧
    sC10.acfcDisabled = false ∧ sC10.acfcDenied = false ∧
    (pppoeOpen allOkEnv sC10).1 =
      { sC10 with opened := true, acfcDisabled := true, acfcDenied := true } := by
  decide

/-- C10 as amended: open() on an outgoing link whose state is not DOWN
sets opened and disables and denies the ACFC option, and performs no
other action: every other session field is unchanged and the only
emitted action is a log line (no graph message, no timer operation, no
host notification). -/
theorem c10_amended (env : OpenEnv) (s : Session)
    (hInc : s.incoming = false) (hSt : s.state ≠ PhysState.down) :
    pppoeOpen env s =
      ({ s with opened := true, acfcDisabled := true, acfcDenied := true },
       [Act.logA]) := by
  simp [pppoeOpen, hInc, hSt]

/-- Witness for C10's amended theorem at the concrete session sC10. -/
theorem c10_witness :
    pppoeOpen allOkEnv sC10 =
      ({ sC10 with opened := true, acfcDisabled := true, acfcDenied := true },
       [Act.logA]) :=
  c10_amended allOkEnv sC10 rfl (by decide)

/- Every single step of the session state machine preserves the DOWN
   invariant (in its amended form with real_service either empty or the
   initial default). -/
theorem stepEv_downInv (s : Session) (e : Ev) (h : downInv s) :
    downInv (stepEv s e).1 := by
  obtain ⟨st, op, inc, tr, hp, pa, se, rs, ac, ar, mp, mpay, mf, ad, ady⟩ := s
  unfold downInv at h ⊢
  cases e with
  | openE env =>
    simp only [stepEv, pppoeOpen]
    split_ifs <;> intro hd <;> simp_all
  | closeE =>
    simp only [stepEv, pppoeClose, pppoeDoClose]
    split_ifs <;> intro hd <;> simp_all
  | timeoutE =>
    simp only [stepEv, connectTimeout, pppoeDoClose]
    split_ifs <;> intro hd <;> simp_all
  | successE =>
    simp only [stepEv, ctrlSuccess]
    split_ifs <;> intro hd <;> simp_all
  | failE =>
    simp only [stepEv, ctrlFail, pppoeDoClose]
    split_ifs <;> intro hd <;> simp_all
  | closeMsgE =>
    simp only [stepEv, ctrlClose, pppoeDoClose]
    split_ifs <;> intro hd <;> simp_all
  | setmaxpE v =>
    simp only [stepEv, ctrlSetMaxp]
    split_ifs <;> intro hd <;> simp_all
  | incomingE env =>
    simp only [stepEv, incomingAccept]
    split_ifs <;> intro hd <;> simp_all
  | setSessionE name =>
    simp only [stepEv, setSessionCmd]
    intro hd; simp_all
  | setMaxPayloadE n =>
    simp only [stepEv, setMaxPayloadCmd]
    split_ifs <;> intro hd <;> simp_all

theorem runEv_downInv (evs : List Ev) :
    ∀ s : Session, downInv s → downInv (runEv s evs) := by
  induction evs with
  | nil => intro s h; exact h
  | cons e evs ih => intro s h; exact ih _ (stepEv_downInv s e h)

/-- Counterexample for C6: immediately after link initialization
(PppoeInit) the session is in state DOWN, yet real_service is not empty:
it holds the default service name "*" copied from session. -/
theorem c6_counterexample :
    (runEv initSession []).state = PhysState.down ∧
    (runEv initSession []).realSession ≠ "" := by decide

/-- C6 as amended: every reachable session in state DOWN has an idle
connect timer, an all-zero peer_mac, empty agent_cid and agent_rid, and
mp_reply = false; real_service is either empty (after any close) or
still the initial default service name "*" set at link initialization. -/
theorem c6_down_invariant (evs : List Ev)
    (h : (runEv initSession evs).state = PhysState.down) :
    (runEv initSession evs).timerRunning = false ∧
    (runEv initSession evs).peeraddr = zero6 ∧
    (runEv initSession evs).agentCid = "" ∧
    (runEv initSession evs).agentRid = "" ∧
    (runEv initSession evs).mpReply = false ∧
    ((runEv initSession evs).realSession = "" ∨
      (runEv initSession evs).realSession = "*") :=
  runEv_downInv evs initSession (fun _ => ⟨rfl, rfl, rfl, rfl, rfl, Or.inr rfl⟩) h

/-- Witness for C6's amended theorem: the empty event list. -/
theorem c6_witness :
    (runEv initSession []).timerRunning = false ∧
    (runEv initSession []).peeraddr = zero6 ∧
    (runEv initSession []).agentCid = "" ∧
    (runEv initSession []).agentRid = "" ∧
    (runEv initSession []).mpReply = false ∧
    ((runEv initSession []).realSession = "" ∨
      (runEv initSession []).realSession = "*") :=
  c6_down_invariant [] rfl

/- The inductive invariant of the registry: refs never goes negative,
   refs is positive exactly when the slot's path is nonempty, and a
   positive refs implies both socket descriptors are valid. -/
theorem regInv (e : PEntry) (h : ReachP e) :
    0 ≤ e.refs ∧ (0 < e.refs ↔ e.ifnodepath ≠ "") ∧
    (0 < e.refs → 0 ≤ e.csock ∧ 0 ≤ e.dsock) := by
  induction h with
  | init => refine ⟨le_refl 0, ?_, ?_⟩ <;> simp [emptyEntry]
  | acq e h hne ih =>
    refine ⟨by simp [acquireExisting]; omega, ?_, ?_⟩
    · simp only [acquireExisting]
      exact ⟨fun _ => hne, fun _ => by have := ih.1; omega⟩
    · intro _
      simpa [acquireExisting] using ih.2.2 (ih.2.1.mpr hne)
  | createOk e path cs ds nid h hfree hp hcs hds ih =>
    refine ⟨by simp [installCreated], ?_, ?_⟩
    · simp only [installCreated]
      exact ⟨fun _ => hp, fun _ => by norm_num⟩
    · intro _
      simpa [installCreated] using ⟨hcs, hds⟩
  | createFail e cs ds h hfree ih =>
    have hz : ¬ 0 < e.refs := fun hpos => (ih.2.1.mp hpos) hfree
    refine ⟨by simpa [createFailed] using ih.1, ?_, ?_⟩
    · simp only [createFailed, hfree]
      constructor
      · intro hpos; exact absurd hpos hz
      · intro hne; exact absurd rfl hne
    · intro hpos
      exact absurd hpos (by simpa [createFailed] using hz)
  | rel e h hr ih =>
    by_cases h0 : e.refs - 1 = 0
    · refine ⟨?_, ?_, ?_⟩ <;> simp [releaseEntry, h0]
    · have hpos : 0 < e.refs := by omega
      refine ⟨?_, ?_, ?_⟩
      · simp [releaseEntry, h0]; omega
      · simp only [releaseEntry, if_neg h0]
        exact ⟨fun _ => ih.2.1.mp hpos, fun _ => by omega⟩
      · intro _
        simpa [releaseEntry, h0] using ih.2.2 hpos

/-- C7: for every reachable registry entry, refs > 0 holds exactly when
both sockets are valid (csock >= 0 and dsock >= 0) and node_path is
nonempty; acquiring a parent whose node_path already matches the entry
increments refs; releasing decrements refs and, when refs reaches zero,
closes both sockets (storing -1) and clears the slot. -/
theorem c7_registry (e : PEntry) (h : ReachP e) :
    ((0 < e.refs) ↔ (0 ≤ e.csock ∧ 0 ≤ e.dsock ∧ e.ifnodepath ≠ "")) ∧
    (acquireExisting e).refs = e.refs + 1 ∧
    (releaseEntry e).refs = e.refs - 1 ∧
    (e.refs = 1 →
      releaseEntry e =
        { e with
            refs := 0
            ifnodepath := ""
            nodeId := 0
            csock := -1
            dsock := -1 }) := by
  have inv := regInv e h
  refine ⟨?_, rfl, ?_, ?_⟩
  · constructor
    · intro hpos
      exact ⟨(inv.2.2 hpos).1, (inv.2.2 hpos).2, inv.2.1.mp hpos⟩
    · intro hc
      exact inv.2.1.mpr hc.2.2
  · by_cases h0 : e.refs - 1 = 0 <;> simp [releaseEntry, h0]
  · intro h1
    simp [releaseEntry, h1]

/-- Witness for C7 at the concrete entry reached by one successful
CreatePppoeNode. -/
theorem c7_witness :
    (0 < entry1.refs) ∧
    (acquireExisting entry1).refs = 2 ∧
    (releaseEntry entry1).refs = 0 ∧
    releaseEntry entry1 =
      { entry1 with
          refs := 0
          ifnodepath := ""
          nodeId := 0
          csock := -1
          dsock := -1 } := by
  have h := c7_registry entry1
    (ReachP.createOk emptyEntry "em0:" 3 4 7 ReachP.init rfl (by decide)
      (by decide) (by decide))
  refine ⟨h.1.mpr (by decide), ?_, ?_, h.2.2.2 (by decide)⟩
  · rw [h.2.1]; decide
  · rw [h.2.2.1]; decide

/-- C9: the set max-payload command rejects every value n outside
PPPOE_MRU <= n <= ETHER_MAX_LEN - 8 with a CLI error and no state
change (the session, in particular max_payload, keeps its previous
value); n = PPPOE_MRU exactly is accepted and stored, while
n = PPPOE_MRU - 1 is rejected. -/
theorem c9_max_payload (s : Session) (n : Int) :
    ((n < (PPPOE_MRU : Int) ∨ (ETHER_MAX_LEN : Int) - 8 < n) →
      setMaxPayloadCmd n s = (s, false)) ∧
    setMaxPayloadCmd (PPPOE_MRU : Int) s =
      ({ s with maxPayload := PPPOE_MRU }, true) ∧
    setMaxPayloadCmd ((PPPOE_MRU : Int) - 1) s = (s, false) := by
  refine ⟨fun h => ?_, ?_, ?_⟩
  · simp [setMaxPayloadCmd, h]
  · norm_num [setMaxPayloadCmd, PPPOE_MRU, ETHER_MAX_LEN]
    decide
  · norm_num [setMaxPayloadCmd, PPPOE_MRU, ETHER_MAX_LEN]

/-- Witness for C9 at concrete values: 9999 and 1491 rejected with the
session unchanged, 1492 accepted and stored. -/
theorem c9_witness :
    setMaxPayloadCmd 9999 initSession = (initSession, false) ∧
    setMaxPayloadCmd 1492 initSession =
      ({ initSession with maxPayload := 1492 }, true) ∧
    setMaxPayloadCmd 1491 initSession = (initSession, false) :=
  ⟨(c9_max_payload initSession 9999).1 (by norm_num [PPPOE_MRU, ETHER_MAX_LEN]),
   (c9_max_payload initSession 1492).2.1,
   (c9_max_payload initSession 1491).2.2⟩

/-- Counterexample for C8: a SUCCESS control message whose embedded hook
name starts with listen- is dropped by the demultiplexer silently, with
zero log lines (pppoe.c:582-583 returns before any Log call), refuting
the claim that each listed drop case emits a log line. -/
theorem c8_counterexample :
    ctrlDemux envNoLinks 0 CtrlCmd.success ("listen-isp".data) = DemuxOut.drop 0 := by
  decide

/-- C8 as amended: for every SUCCESS/FAIL/CLOSE/SETMAXP control message,
the demultiplexer drops it — never fatally and never touching any
link's state — when its hook name starts with listen-, lacks the
mpd pid- hook name start, carries an unknown or non-PPPoE link id,
resolves to a link whose parent differs from the receiving parent, or
targets a link in state DOWN; a single log line accompanies the drop
except for listen- hooks and CLOSE messages for DOWN links, which are
dropped silently; and a message is dispatched only to a known PPPoE
link of the receiving parent that is not DOWN. -/
theorem c8_amended (env : DemuxEnv) (p : Nat) (cmd : CtrlCmd) (hook : List Char) :
    (routeHook env.pid hook = Route.listenH →
      ctrlDemux env p cmd hook = DemuxOut.drop 0) ∧
    (routeHook env.pid hook = Route.badPfx →
      ctrlDemux env p cmd hook = DemuxOut.drop 1) ∧
    (∀ id, routeHook env.pid hook = Route.badParse id →
      ctrlDemux env p cmd hook = DemuxOut.drop 1) ∧
    (∀ id, routeHook env.pid hook = Route.linkId id → env.links id = none →
      ctrlDemux env p cmd hook = DemuxOut.drop 1) ∧
    (∀ id lk, routeHook env.pid hook = Route.linkId id → env.links id = some lk →
      lk.isPppoe = false → ctrlDemux env p cmd hook = DemuxOut.drop 1) ∧
    (∀ id lk, routeHook env.pid hook = Route.linkId id → env.links id = some lk →
      lk.parent ≠ p → ctrlDemux env p cmd hook = DemuxOut.drop 1) ∧
    (∀ id lk, routeHook env.pid hook = Route.linkId id → env.links id = some lk →
      lk.isPppoe = true → lk.parent = p → lk.down = true →
      ctrlDemux env p cmd hook =
        DemuxOut.drop (if cmd = CtrlCmd.closeCmd then 0 else 1)) ∧
    (∀ id, ctrlDemux env p cmd hook = DemuxOut.dispatch id →
      ∃ lk, env.links id = some lk ∧ lk.isPppoe = true ∧ lk.parent = p ∧
        lk.down = false) := by
  refine ⟨?_, ?_, ?_, ?_, ?_, ?_, ?_, ?_⟩
  · intro hr; simp [ctrlDemux, hr]
  · intro hr; simp [ctrlDemux, hr]
  · intro id hr; simp [ctrlDemux, hr]
  · intro id hr hl; simp [ctrlDemux, hr, hl]
  · intro id lk hr hl hpp; simp [ctrlDemux, hr, hl, hpp]
  · intro id lk hr hl hpar
    simp only [ctrlDemux, hr, hl]
    by_cases hpp : lk.isPppoe = false
    · simp [hpp]
    · simp [hpp, hpar]
  · intro id lk hr hl h1 h2 h3
    by_cases hc : cmd = CtrlCmd.closeCmd <;> simp [ctrlDemux, hr, hl, h1, h2, h3, hc]
  · intro id hd
    unfold ctrlDemux at hd
    rcases hr : routeHook env.pid hook with _ | _ | i | i <;> rw [hr] at hd
    · simp at hd
    · simp at hd
    · simp at hd
    · rcases hl : env.links i with _ | lk
      · simp [hl] at hd
      · rcases lk with ⟨pppoe, par, dwn⟩
        cases pppoe
        · simp [hl] at hd
        · by_cases hpar : par = p
          · subst hpar
            cases dwn
            · simp [hl] at hd
              subst hd
              exact ⟨⟨true, par, false⟩, hl, rfl, rfl, rfl⟩
            · cases cmd <;> simp [hl] at hd
          · simp [hl, hpar] at hd

/-- Witness for C8's amended theorem at concrete messages: a hook
without the mpd pid- start is dropped with one log line; a CLOSE for
the DOWN link 7 is dropped silently while a SUCCESS for it is dropped
with one log line. -/
theorem c8_witness :
    ctrlDemux envNoLinks 0 CtrlCmd.success ("xyz".data) = DemuxOut.drop 1 ∧
    ctrlDemux envDown7 0 CtrlCmd.closeCmd ("mpd123-7".data) = DemuxOut.drop 0 ∧
    ctrlDemux envDown7 0 CtrlCmd.success ("mpd123-7".data) = DemuxOut.drop 1 := by
  refine ⟨(c8_amended envNoLinks 0 CtrlCmd.success ("xyz".data)).2.1 (by decide),
    ?_, ?_⟩
  · have h := (c8_amended envDown7 0 CtrlCmd.closeCmd ("mpd123-7".data)).2.2.2.2.2.2.1
      7 dlink7 (by decide) (by decide) (by decide) (by decide) (by decide)
    simpa using h
  · have h := (c8_amended envDown7 0 CtrlCmd.success ("mpd123-7".data)).2.2.2.2.2.2.1
      7 dlink7 (by decide) (by decide) (by decide) (by decide) (by decide)
    simpa using h
